import Mathlib

/-!
Verification of the IR_calibration repository (short-rate model calibration
against market swaption volatilities, notebook `Short_rate_models_calibration.ipynb`).

The notebook drives an external pricing library.  The code present in the
repository is embedded directly (the quote list, `create_swaption_helpers`,
`calibration_report`, and the calibration driver cells).  Library behaviour the
repository only calls — Black-price inversion, the least-squares calibration
loop, the model parameter vectors — is modelled from the specification, with
each such definition marked `Modelled from the spec:` in its doc comment.

Numbers are embedded as exact rationals; the two cumulative error scalars,
which the source obtains with `math.sqrt`, are expressed with `Real.sqrt`
applied to the rational accumulators.
-/

/-- Day-count conventions appearing in the notebook (`Actual360`,
`Actual365Fixed`); opaque collaborator values. -/
inductive DayCounter where
  | Actual360
  | Actual365Fixed
deriving DecidableEq

/-- Modelled from the spec: the interest-rate index collaborator
(`Euribor1Y(term_structure)` in the notebook); only its tenor is observable
to the calibration core. -/
structure IborIndex where
  tenorYears : Int

/-- Modelled from the spec: the yield-curve collaborator.  The curve is an
opaque queryable handle; §4.1 of the spec states that `blackPrice(vol)` is the
market-convention lognormal price computed from the curve-implied forward rate
and annuity, independent of the short-rate model.  The transcendental Black
formula itself is library code absent from the repository, so the curve
carries its induced Black price map (maturity, tenor, vol ↦ price) as data. -/
structure YieldTermStructureHandle where
  flatRate : ℚ
  dayCount : DayCounter
  black : Int → Int → ℚ → ℚ

/-- Modelled from the spec (§2, §4.2): a pricing engine consumes the model
parameters and the instrument description and produces a model price.  The
three concrete engine families (analytic, tree, finite-difference) are library
code absent from the repository; an engine is its pricing map. -/
structure PricingEngine where
  modelPriceOf : List ℚ → Int → Int → ℚ

/-- One market quote, from the notebook cell
`CalibrationData = namedtuple("CalibrationData", "start, length, volatility")`. -/
structure CalibrationData where
  start : Int
  length : Int
  volatility : ℚ
deriving DecidableEq

/-- The five quotes of the notebook data cell. -/
def data : List CalibrationData :=
  [⟨1, 5, 1148/10000⟩, ⟨2, 4, 1108/10000⟩, ⟨3, 3, 1070/10000⟩,
   ⟨4, 2, 1021/10000⟩, ⟨5, 1, 1000/10000⟩]

/-- A swaption calibration helper as built by `create_swaption_helpers`: the
quote fields, the leg conventions fixed in that function, the shared curve,
the index, and the bound pricing engine.  The source constructs the helper and
then binds the engine with `setPricingEngine`; the embedding records the
result of both steps. -/
structure SwaptionHelper where
  maturity : Int
  tenorLen : Int
  volQuote : ℚ
  index : IborIndex
  fixedLegTenor : Int
  fixedLegDayCounter : DayCounter
  floatingLegDayCounter : DayCounter
  termStructure : YieldTermStructureHandle
  engine : PricingEngine

/-- The helper built from one quote by the loop body of
`create_swaption_helpers`: `Period(d.start, Years)`, `Period(d.length, Years)`,
the volatility quote handle, the index, one-year `Actual360` fixed leg,
`Actual360` floating leg, the shared curve, and the engine bound by
`setPricingEngine`. -/
def helperOf (index : IborIndex) (term_structure : YieldTermStructureHandle)
    (engine : PricingEngine) (d : CalibrationData) : SwaptionHelper :=
  { maturity := d.start
    tenorLen := d.length
    volQuote := d.volatility
    index := index
    fixedLegTenor := 1
    fixedLegDayCounter := DayCounter.Actual360
    floatingLegDayCounter := DayCounter.Actual360
    termStructure := term_structure
    engine := engine }

/-- `create_swaption_helpers(data, index, term_structure, engine)` from the
notebook: iterates over the quotes, builds one `SwaptionHelper` per quote and
appends it to the accumulating list. -/
def create_swaption_helpers (data : List CalibrationData) (index : IborIndex)
    (term_structure : YieldTermStructureHandle) (engine : PricingEngine) :
    List SwaptionHelper :=
  data.foldl (fun swaptions d => swaptions ++ [helperOf index term_structure engine d]) []

/-- Error taxonomy of spec §7.  The root-find failures surfaced by
`impliedVolatility` are `NoConvergence` (§4.1). -/
inductive CalibError where
  | NoConvergence
  | DomainError
  | ConfigurationError
deriving DecidableEq

/-- `modelValue()`: the instrument price under the current model parameters,
computed by the bound engine (§4.1: deterministic given fixed parameters and
curve).  The parameter vector, reached in the source through the engine and
its owning model, is the explicit argument. -/
def SwaptionHelper.modelValue (s : SwaptionHelper) (params : List ℚ) : ℚ :=
  s.engine.modelPriceOf params s.maturity s.tenorLen

/-- `blackPrice(vol)`: the curve-implied market-convention price at the given
volatility (§4.1); independent of the short-rate model. -/
def SwaptionHelper.blackPrice (s : SwaptionHelper) (vol : ℚ) : ℚ :=
  s.termStructure.black s.maturity s.tenorLen vol

/-- Modelled from the spec (§4.1): the 1-D root finder used by
`impliedVolatility` (library code absent from the repository), as bisection:
it answers the midpoint once the price matches the target within the
tolerance, recurses on the half that brackets the target, and fails with
`NoConvergence` when the iteration budget is exhausted. -/
def bisect (f : ℚ → ℚ) (target tol : ℚ) : ℕ → ℚ → ℚ → Except CalibError ℚ
  | 0, _, _ => Except.error CalibError.NoConvergence
  | n + 1, lo, hi =>
    if |f ((lo + hi) / 2) - target| ≤ tol then Except.ok ((lo + hi) / 2)
    else if f ((lo + hi) / 2) < target then bisect f target tol n ((lo + hi) / 2) hi
    else bisect f target tol n lo ((lo + hi) / 2)

/-- Modelled from the spec (§4.1): `impliedVolatility(targetPrice, tolerance,
maxIterations, lowerBound, upperBound)` inverts `blackPrice` by a 1-D root
find on volatility.  It fails with `NoConvergence` when the target is not
achievable on the search interval — in particular for a non-positive target
(the stated edge case) or a target above the price at the upper bound — and
when the root find exhausts its iteration budget; it never silently answers a
boundary volatility. -/
def SwaptionHelper.impliedVolatility (s : SwaptionHelper) (target tol : ℚ)
    (maxIterations : ℕ) (lo hi : ℚ) : Except CalibError ℚ :=
  if target ≤ 0 then Except.error CalibError.NoConvergence
  else if target < s.blackPrice lo then Except.error CalibError.NoConvergence
  else if s.blackPrice hi < target then Except.error CalibError.NoConvergence
  else bisect s.blackPrice target tol maxIterations lo hi

/-- One row of the report table, from `calibration_report`: model price,
market (Black) price, implied volatility, market volatility, relative price
error and relative volatility error. -/
structure ReportRow where
  modelPrice : ℚ
  marketPrice : ℚ
  impliedVol : ℚ
  marketVol : ℚ
  relErrorPrice : ℚ
  relErrorVol : ℚ
deriving DecidableEq

/-- The value `calibration_report` produces: the row list together with the
two accumulators `cum_err` and `cum_err2` (the sums of squared relative
errors; the source prints `math.sqrt` of each, see
`CalibReport.cumulativeErrorPrice`). -/
structure CalibReport where
  rows : List ReportRow
  cumErrPriceSq : ℚ
  cumErrVolSq : ℚ
deriving DecidableEq

/-- The loop body of `calibration_report`: for each swaption and its quote it
computes `model_price = s.modelValue()`, `black_price = s.blackPrice(market_vol)`,
`rel_error = model_price / black_price - 1`, inverts the implied volatility at
`s.impliedVolatility(model_price, 1e-5, 50, 0.0, 0.50)`, accumulates the two
squared relative errors and appends the row.  A raised root-find error aborts
the whole call, as the Python exception would. -/
def reportLoop (p : List ℚ) :
    List (SwaptionHelper × CalibrationData) → ℚ → ℚ → List ReportRow →
    Except CalibError (List ReportRow × ℚ × ℚ)
  | [], cum_err, cum_err2, rows => Except.ok (rows, cum_err, cum_err2)
  | (s, d) :: rest, cum_err, cum_err2, rows =>
    match s.impliedVolatility (s.modelValue p) (1/100000) 50 0 (1/2) with
    | Except.error e => Except.error e
    | Except.ok implied_vol =>
      reportLoop p rest
        (cum_err + (s.modelValue p / s.blackPrice d.volatility - 1) ^ 2)
        (cum_err2 + (implied_vol / d.volatility - 1) ^ 2)
        (rows ++ [{ modelPrice := s.modelValue p
                    marketPrice := s.blackPrice d.volatility
                    impliedVol := implied_vol
                    marketVol := d.volatility
                    relErrorPrice := s.modelValue p / s.blackPrice d.volatility - 1
                    relErrorVol := implied_vol / d.volatility - 1 }])

/-- `calibration_report(swaptions, data)` from the notebook.  The source
indexes the quote list positionally (`data[i]`); the embedding pairs the two
lists positionally with `zip`.  The live model parameter vector, reached in
the source through each helper's bound engine, is the explicit argument `p`. -/
def calibration_report (p : List ℚ) (swaptions : List SwaptionHelper)
    (data : List CalibrationData) : Except CalibError CalibReport :=
  match reportLoop p (swaptions.zip data) 0 0 [] with
  | Except.error e => Except.error e
  | Except.ok (rows, cum_err, cum_err2) =>
    Except.ok { rows := rows, cumErrPriceSq := cum_err, cumErrVolSq := cum_err2 }

/-- The price-space cumulative error scalar the source prints:
`math.sqrt(cum_err)` where `cum_err` accumulates the squared relative price
errors. -/
noncomputable def CalibReport.cumulativeErrorPrice (r : CalibReport) : ℝ :=
  Real.sqrt (r.cumErrPriceSq : ℝ)

/-- The volatility-space cumulative error scalar the source prints:
`math.sqrt(cum_err2)`. -/
noncomputable def CalibReport.cumulativeErrorVols (r : CalibReport) : ℝ :=
  Real.sqrt (r.cumErrVolSq : ℝ)

/-- The price-space cumulative error as the specification words it: a
root-mean-square aggregate, the square root of the MEAN of the squared
per-instrument relative price errors.  Stated from the spec for comparison
with the scalar the code computes. -/
noncomputable def rmsErrorPriceOfSpec (r : CalibReport) : ℝ :=
  Real.sqrt ((((r.rows.map (fun row => row.relErrorPrice ^ 2)).sum : ℚ) : ℝ) /
    (r.rows.length : ℝ))

/-- The volatility-space cumulative error as the specification words it
(root of the mean of the squared relative implied-volatility errors). -/
noncomputable def rmsErrorVolsOfSpec (r : CalibReport) : ℝ :=
  Real.sqrt ((((r.rows.map (fun row => row.relErrorVol ^ 2)).sum : ℚ) : ℝ) /
    (r.rows.length : ℝ))

/-- The model variants calibrated by the notebook: one-factor mean-reverting
(`HullWhite`), log one-factor mean-reverting (`BlackKarasinski`), two-factor
additive (`G2`). -/
inductive ModelVariant where
  | HullWhite
  | BlackKarasinski
  | G2
deriving DecidableEq

/-- Parameter-vector length per variant (spec §3: two for the one-factor
variants, five for the two-factor variant). -/
def ModelVariant.paramCount : ModelVariant → ℕ
  | ModelVariant.HullWhite => 2
  | ModelVariant.BlackKarasinski => 2
  | ModelVariant.G2 => 5

/-- Calibration lifecycle states of spec §4.3. -/
inductive CalibState where
  | UNCALIBRATED
  | CALIBRATING
  | CALIBRATED
  | FAILED
deriving DecidableEq

/-- Modelled from the spec (§3, §4.3): a short-rate model owns its variant,
the shared curve and the free parameter vector ({a, sigma} or
{a, sigma, b, eta, rho}), and moves through the calibration lifecycle. -/
structure ShortRateModel where
  variant : ModelVariant
  termStructure : YieldTermStructureHandle
  paramsVec : List ℚ
  lifecycle : CalibState

/-- Modelled from the spec: the `HullWhite(term_structure)` constructor; the
initial values of {a, sigma} are opaque library defaults, only the vector
shape is specified. -/
def HullWhite (term_structure : YieldTermStructureHandle) : ShortRateModel :=
  { variant := ModelVariant.HullWhite
    termStructure := term_structure
    paramsVec := [1/10, 1/100]
    lifecycle := CalibState.UNCALIBRATED }

/-- Modelled from the spec: the `BlackKarasinski(term_structure)` constructor;
initial {a, sigma} are opaque library defaults. -/
def BlackKarasinski (term_structure : YieldTermStructureHandle) : ShortRateModel :=
  { variant := ModelVariant.BlackKarasinski
    termStructure := term_structure
    paramsVec := [1/10, 1/10]
    lifecycle := CalibState.UNCALIBRATED }

/-- Modelled from the spec: the `G2(term_structure)` constructor; initial
{a, sigma, b, eta, rho} are opaque library defaults. -/
def G2 (term_structure : YieldTermStructureHandle) : ShortRateModel :=
  { variant := ModelVariant.G2
    termStructure := term_structure
    paramsVec := [1/10, 1/100, 1/10, 1/100, -(3/4)]
    lifecycle := CalibState.UNCALIBRATED }

/-- `params()`: the model's current parameter vector. -/
def ShortRateModel.params (m : ShortRateModel) : List ℚ :=
  m.paramsVec

/-- Stopping criteria, from the notebook constructor
`EndCriteria(maxIterations, maxStationaryStateIterations, rootEpsilon,
functionEpsilon, gradientNormEpsilon)`. -/
structure EndCriteria where
  maxIterations : ℕ
  maxStationaryStateIterations : ℕ
  rootEpsilon : ℚ
  functionEpsilon : ℚ
  gradientNormEpsilon : ℚ

/-- Modelled from the spec (§4.4): the derivative-based least-squares
optimizer.  Its internals (Levenberg-Marquardt damping, finite-difference
gradients) are library code absent from the repository, so the proposal it
makes at each iteration is opaque data; a proposal keeps the shape of the
model's fixed-shape parameter vector (§4.3: the optimizer mutates the model's
live parameter vector). -/
structure Optimizer where
  proposals : ℕ → List ℚ → List ℚ
  proposals_sameLength : ∀ i p, (proposals i p).length = p.length

/-- Modelled from the spec (§2, §4.3 step 1): the objective — the sum over
the instruments of the squared pricing error between the model price under
the trial parameters and the instrument's Black market price at its quoted
volatility. -/
def calibrationObjective (instruments : List SwaptionHelper) (p : List ℚ) : ℚ :=
  (instruments.map (fun s => (s.modelValue p - s.blackPrice s.volQuote) ^ 2)).sum

/-- Modelled from the spec (§4.3, §4.4): the optimizer iteration.  Each round
either stops converged (a stopping criterion is met — abstracted to the
objective threshold), or evaluates the next proposal, keeps it when it
improves the objective, and continues; when the iteration cap is exhausted it
stops unconverged with the best-found parameters. -/
def minimizeAux (opt : Optimizer) (objective : List ℚ → ℚ) (ec : EndCriteria) :
    ℕ → ℕ → List ℚ → List ℚ × Bool × ℕ
  | 0, used, best => (best, false, used)
  | fuel + 1, used, best =>
    if objective best ≤ ec.rootEpsilon then (best, true, used)
    else if objective (opt.proposals used best) < objective best then
      minimizeAux opt objective ec fuel (used + 1) (opt.proposals used best)
    else
      minimizeAux opt objective ec fuel (used + 1) best

/-- Modelled from the spec (§4.4): `minimize(objectiveFn, initialParams,
stoppingCriteria) -> (finalParams, converged, iterationsUsed)`. -/
def Optimizer.minimize (opt : Optimizer) (objective : List ℚ → ℚ)
    (ec : EndCriteria) (init : List ℚ) : List ℚ × Bool × ℕ :=
  minimizeAux opt objective ec ec.maxIterations 0 init

/-- Modelled from the spec (§4.3): `model.calibrate(instruments, optimizer,
end_criteria)` delegates minimization of the pricing-error objective to the
optimizer starting from the current parameters, retains the resulting (best
found) parameter vector on the model whether or not a convergence criterion
fired, moves the lifecycle to `CALIBRATED` on convergence and to `FAILED`
otherwise, and reports the converged flag. -/
def ShortRateModel.calibrate (m : ShortRateModel) (instruments : List SwaptionHelper)
    (opt : Optimizer) (ec : EndCriteria) : ShortRateModel × Bool :=
  ( { m with
      paramsVec := (opt.minimize (calibrationObjective instruments) ec m.paramsVec).1
      lifecycle :=
        if (opt.minimize (calibrationObjective instruments) ec m.paramsVec).2.1 then
          CalibState.CALIBRATED
        else CalibState.FAILED },
    (opt.minimize (calibrationObjective instruments) ec m.paramsVec).2.1 )

/-- The mutable state visible to `calibration_report`: the live model
parameter vector, the shared curve, the helper list and the quote list.  Used
to check the frame property of the report (spec §4.5: no mutation). -/
structure World where
  modelParams : List ℚ
  curve : YieldTermStructureHandle
  swaptions : List SwaptionHelper
  data : List CalibrationData

/-- `modelValue()` as a state access: a read (§4.1 and §4.5, the report only
reads); the returned state is the state threaded onward. -/
def World.readModelValue (w : World) (s : SwaptionHelper) : ℚ × World :=
  (s.modelValue w.modelParams, w)

/-- `blackPrice(vol)` as a state access: a read. -/
def World.readBlackPrice (w : World) (s : SwaptionHelper) (vol : ℚ) : ℚ × World :=
  (s.blackPrice vol, w)

/-- `impliedVolatility(...)` as a state access: a read that can fail. -/
def World.readImpliedVolatility (w : World) (s : SwaptionHelper) (target tol : ℚ)
    (maxIterations : ℕ) (lo hi : ℚ) : Except CalibError (ℚ × World) :=
  match s.impliedVolatility target tol maxIterations lo hi with
  | Except.error e => Except.error e
  | Except.ok v => Except.ok (v, w)

/-- The `calibration_report` loop with the ambient state threaded through
every access, so that the frame property (the state coming out is the state
that went in) is a statement rather than a convention. -/
def reportLoopW :
    World → List (SwaptionHelper × CalibrationData) → ℚ → ℚ → List ReportRow →
    Except CalibError ((List ReportRow × ℚ × ℚ) × World)
  | w, [], cum_err, cum_err2, rows => Except.ok ((rows, cum_err, cum_err2), w)
  | w, (s, d) :: rest, cum_err, cum_err2, rows =>
    match (((w.readModelValue s).2.readBlackPrice s d.volatility).2).readImpliedVolatility
        s (w.readModelValue s).1 (1/100000) 50 0 (1/2) with
    | Except.error e => Except.error e
    | Except.ok iv =>
      reportLoopW iv.2 rest
        (cum_err + ((w.readModelValue s).1 / ((w.readModelValue s).2.readBlackPrice s d.volatility).1 - 1) ^ 2)
        (cum_err2 + (iv.1 / d.volatility - 1) ^ 2)
        (rows ++ [{ modelPrice := (w.readModelValue s).1
                    marketPrice := ((w.readModelValue s).2.readBlackPrice s d.volatility).1
                    impliedVol := iv.1
                    marketVol := d.volatility
                    relErrorPrice := (w.readModelValue s).1 / ((w.readModelValue s).2.readBlackPrice s d.volatility).1 - 1
                    relErrorVol := iv.1 / d.volatility - 1 }])

/-- `calibration_report` over the threaded state. -/
def calibration_reportW (w : World) : Except CalibError (CalibReport × World) :=
  match reportLoopW w (w.swaptions.zip w.data) 0 0 [] with
  | Except.error e => Except.error e
  | Except.ok (res, w2) =>
    Except.ok ({ rows := res.1, cumErrPriceSq := res.2.1, cumErrVolSq := res.2.2 }, w2)

/-- Fixture: a curve whose Black price map is the identity in the volatility —
a synthetic monotone price map on which the root finder can be evaluated
exactly. -/
def exCurve : YieldTermStructureHandle :=
  { flatRate := 4875825/100000000
    dayCount := DayCounter.Actual365Fixed
    black := fun _ _ vol => vol }

/-- Fixture: the index handle. -/
def exIndex : IborIndex := { tenorYears := 1 }

/-- Fixture: an engine whose model price is 1/4 for every instrument and
parameter vector. -/
def exEngine : PricingEngine := { modelPriceOf := fun _ _ _ => 1/4 }

/-- Fixture: an engine whose model price 1 exceeds the Black price 1/2 of
`exCurve` at the upper volatility bound. -/
def exEngineHigh : PricingEngine := { modelPriceOf := fun _ _ _ => 1 }

/-- Fixture: a parameter vector. -/
def exParams : List ℚ := [1/10, 1/100]

/-- Fixture: two quotes with market volatility 1/8. -/
def exData : List CalibrationData := [⟨1, 5, 1/8⟩, ⟨2, 4, 1/8⟩]

/-- Fixture: the helpers `create_swaption_helpers` builds from `exData`. -/
def exSwaptions : List SwaptionHelper :=
  create_swaption_helpers exData exIndex exCurve exEngine

/-- Fixture: the row the report computes for each helper of `exSwaptions`:
model price 1/4, market price 1/8, implied volatility 1/4, market volatility
1/8, both relative errors 1. -/
def exRow : ReportRow :=
  { modelPrice := 1/4
    marketPrice := 1/8
    impliedVol := 1/4
    marketVol := 1/8
    relErrorPrice := 1
    relErrorVol := 1 }

/-- Fixture: the report on `exSwaptions`: two identical rows and the two
accumulators both 2. -/
def exReport : CalibReport :=
  { rows := [exRow, exRow]
    cumErrPriceSq := 2
    cumErrVolSq := 2 }

/-- Fixture: the ambient state holding `exSwaptions` and `exData`. -/
def exWorld : World :=
  { modelParams := exParams
    curve := exCurve
    swaptions := exSwaptions
    data := exData }

theorem bisect_ok_abs (f : ℚ → ℚ) (target tol : ℚ) :
    ∀ (n : ℕ) (lo hi v : ℚ), bisect f target tol n lo hi = Except.ok v →
      |f v - target| ≤ tol := by
  intro n
  induction n with
  | zero => intro lo hi v h; simp [bisect] at h
  | succ k ih =>
    intro lo hi v h
    rw [bisect] at h
    by_cases h1 : |f ((lo + hi) / 2) - target| ≤ tol
    · rw [if_pos h1] at h
      cases h
      exact h1
    · rw [if_neg h1] at h
      by_cases h2 : f ((lo + hi) / 2) < target
      · rw [if_pos h2] at h
        exact ih ((lo + hi) / 2) hi v h
      · rw [if_neg h2] at h
        exact ih lo ((lo + hi) / 2) v h

theorem bisect_error_eq (f : ℚ → ℚ) (target tol : ℚ) :
    ∀ (n : ℕ) (lo hi : ℚ) (e : CalibError),
      bisect f target tol n lo hi = Except.error e → e = CalibError.NoConvergence := by
  intro n
  induction n with
  | zero =>
    intro lo hi e h
    rw [bisect] at h
    cases h
    rfl
  | succ k ih =>
    intro lo hi e h
    rw [bisect] at h
    by_cases h1 : |f ((lo + hi) / 2) - target| ≤ tol
    · rw [if_pos h1] at h; cases h
    · rw [if_neg h1] at h
      by_cases h2 : f ((lo + hi) / 2) < target
      · rw [if_pos h2] at h
        exact ih ((lo + hi) / 2) hi e h
      · rw [if_neg h2] at h
        exact ih lo ((lo + hi) / 2) e h

theorem impliedVolatility_ok_abs (s : SwaptionHelper) (target tol : ℚ)
    (maxIterations : ℕ) (lo hi v : ℚ)
    (h : s.impliedVolatility target tol maxIterations lo hi = Except.ok v) :
    |s.blackPrice v - target| ≤ tol := by
  rw [SwaptionHelper.impliedVolatility] at h
  by_cases h1 : target ≤ 0
  · rw [if_pos h1] at h; cases h
  · rw [if_neg h1] at h
    by_cases h2 : target < s.blackPrice lo
    · rw [if_pos h2] at h; cases h
    · rw [if_neg h2] at h
      by_cases h3 : s.blackPrice hi < target
      · rw [if_pos h3] at h; cases h
      · rw [if_neg h3] at h
        exact bisect_ok_abs s.blackPrice target tol maxIterations lo hi v h

theorem impliedVolatility_error_eq (s : SwaptionHelper) (target tol : ℚ)
    (maxIterations : ℕ) (lo hi : ℚ) (e : CalibError)
    (h : s.impliedVolatility target tol maxIterations lo hi = Except.error e) :
    e = CalibError.NoConvergence := by
  rw [SwaptionHelper.impliedVolatility] at h
  by_cases h1 : target ≤ 0
  · rw [if_pos h1] at h; cases h; rfl
  · rw [if_neg h1] at h
    by_cases h2 : target < s.blackPrice lo
    · rw [if_pos h2] at h; cases h; rfl
    · rw [if_neg h2] at h
      by_cases h3 : s.blackPrice hi < target
      · rw [if_pos h3] at h; cases h; rfl
      · rw [if_neg h3] at h
        exact bisect_error_eq s.blackPrice target tol maxIterations lo hi e h

theorem impliedVolatility_nonpos (s : SwaptionHelper) (target tol : ℚ)
    (maxIterations : ℕ) (lo hi : ℚ) (h : target ≤ 0) :
    s.impliedVolatility target tol maxIterations lo hi =
      Except.error CalibError.NoConvergence := by
  rw [SwaptionHelper.impliedVolatility, if_pos h]

theorem impliedVolatility_below_lo (s : SwaptionHelper) (target tol : ℚ)
    (maxIterations : ℕ) (lo hi : ℚ) (h : target < s.blackPrice lo) :
    s.impliedVolatility target tol maxIterations lo hi =
      Except.error CalibError.NoConvergence := by
  rw [SwaptionHelper.impliedVolatility]
  by_cases h1 : target ≤ 0
  · rw [if_pos h1]
  · rw [if_neg h1, if_pos h]

theorem impliedVolatility_above_hi (s : SwaptionHelper) (target tol : ℚ)
    (maxIterations : ℕ) (lo hi : ℚ) (h : s.blackPrice hi < target) :
    s.impliedVolatility target tol maxIterations lo hi =
      Except.error CalibError.NoConvergence := by
  rw [SwaptionHelper.impliedVolatility]
  by_cases h1 : target ≤ 0
  · rw [if_pos h1]
  · rw [if_neg h1]
    by_cases h2 : target < s.blackPrice lo
    · rw [if_pos h2]
    · rw [if_neg h2, if_pos h]

theorem impliedVolatility_zero_budget (s : SwaptionHelper) (target tol : ℚ)
    (lo hi : ℚ) :
    s.impliedVolatility target tol 0 lo hi = Except.error CalibError.NoConvergence := by
  rw [SwaptionHelper.impliedVolatility]
  by_cases h1 : target ≤ 0
  · rw [if_pos h1]
  · rw [if_neg h1]
    by_cases h2 : target < s.blackPrice lo
    · rw [if_pos h2]
    · rw [if_neg h2]
      by_cases h3 : s.blackPrice hi < target
      · rw [if_pos h3]
      · rw [if_neg h3, bisect]

theorem foldl_append_singleton {α β : Type} (f : α → β) :
    ∀ (l : List α) (acc : List β),
      l.foldl (fun r a => r ++ [f a]) acc = acc ++ l.map f := by
  intro l
  induction l with
  | nil => intro acc; simp
  | cons a t ih =>
    intro acc
    simp only [List.foldl_cons, List.map_cons]
    rw [ih (acc ++ [f a])]
    simp

theorem create_swaption_helpers_eq_map (data : List CalibrationData)
    (index : IborIndex) (term_structure : YieldTermStructureHandle)
    (engine : PricingEngine) :
    create_swaption_helpers data index term_structure engine =
      data.map (helperOf index term_structure engine) := by
  rw [create_swaption_helpers, foldl_append_singleton]
  simp

theorem minimizeAux_fst_length (opt : Optimizer) (objective : List ℚ → ℚ)
    (ec : EndCriteria) :
    ∀ (fuel used : ℕ) (best : List ℚ),
      (minimizeAux opt objective ec fuel used best).1.length = best.length := by
  intro fuel
  induction fuel with
  | zero => intro used best; rfl
  | succ k ih =>
    intro used best
    rw [minimizeAux]
    by_cases h1 : objective best ≤ ec.rootEpsilon
    · rw [if_pos h1]
    · rw [if_neg h1]
      by_cases h2 : objective (opt.proposals used best) < objective best
      · rw [if_pos h2, ih (used + 1) (opt.proposals used best),
          opt.proposals_sameLength used best]
      · rw [if_neg h2, ih (used + 1) best]

theorem minimizeAux_fst_objective_le (opt : Optimizer) (objective : List ℚ → ℚ)
    (ec : EndCriteria) :
    ∀ (fuel used : ℕ) (best : List ℚ),
      objective (minimizeAux opt objective ec fuel used best).1 ≤ objective best := by
  intro fuel
  induction fuel with
  | zero => intro used best; exact le_refl _
  | succ k ih =>
    intro used best
    rw [minimizeAux]
    by_cases h1 : objective best ≤ ec.rootEpsilon
    · rw [if_pos h1]
    · rw [if_neg h1]
      by_cases h2 : objective (opt.proposals used best) < objective best
      · rw [if_pos h2]
        exact le_trans (ih (used + 1) (opt.proposals used best)) (le_of_lt h2)
      · rw [if_neg h2]
        exact ih (used + 1) best

theorem minimize_fst_length (opt : Optimizer) (objective : List ℚ → ℚ)
    (ec : EndCriteria) (init : List ℚ) :
    (opt.minimize objective ec init).1.length = init.length :=
  minimizeAux_fst_length opt objective ec ec.maxIterations 0 init

theorem minimize_fst_objective_le (opt : Optimizer) (objective : List ℚ → ℚ)
    (ec : EndCriteria) (init : List ℚ) :
    objective (opt.minimize objective ec init).1 ≤ objective init :=
  minimizeAux_fst_objective_le opt objective ec ec.maxIterations 0 init

theorem reportLoop_ok_sums (p : List ℚ) :
    ∀ (pairs : List (SwaptionHelper × CalibrationData)) (ce ce2 : ℚ)
      (acc rows : List ReportRow) (cf c2f : ℚ),
      reportLoop p pairs ce ce2 acc = Except.ok (rows, cf, c2f) →
      ∃ tail, rows = acc ++ tail ∧
        cf = ce + (tail.map (fun r => r.relErrorPrice ^ 2)).sum ∧
        c2f = ce2 + (tail.map (fun r => r.relErrorVol ^ 2)).sum := by
  intro pairs
  induction pairs with
  | nil =>
    intro ce ce2 acc rows cf c2f h
    rw [reportLoop] at h
    cases h
    exact ⟨[], by simp⟩
  | cons sd rest ih =>
    intro ce ce2 acc rows cf c2f h
    obtain ⟨s, d⟩ := sd
    rw [reportLoop] at h
    cases heq : s.impliedVolatility (s.modelValue p) (1/100000) 50 0 (1/2) with
    | error e => rw [heq] at h; cases h
    | ok implied_vol =>
      rw [heq] at h
      obtain ⟨tail, hrows, hcf, hc2f⟩ := ih _ _ _ _ _ _ h
      refine ⟨{ modelPrice := s.modelValue p
                marketPrice := s.blackPrice d.volatility
                impliedVol := implied_vol
                marketVol := d.volatility
                relErrorPrice := s.modelValue p / s.blackPrice d.volatility - 1
                relErrorVol := implied_vol / d.volatility - 1 } :: tail, ?_, ?_, ?_⟩
      · rw [hrows]; simp
      · rw [hcf]; simp; ring
      · rw [hc2f]; simp; ring

theorem reportLoop_mem_fail (p : List ℚ) (s : SwaptionHelper) (d : CalibrationData)
    (hfail : s.impliedVolatility (s.modelValue p) (1/100000) 50 0 (1/2) =
      Except.error CalibError.NoConvergence) :
    ∀ (pairs : List (SwaptionHelper × CalibrationData)) (ce ce2 : ℚ)
      (acc : List ReportRow), (s, d) ∈ pairs →
      reportLoop p pairs ce ce2 acc = Except.error CalibError.NoConvergence := by
  intro pairs
  induction pairs with
  | nil => intro ce ce2 acc hmem; cases hmem
  | cons sd rest ih =>
    intro ce ce2 acc hmem
    obtain ⟨s0, d0⟩ := sd
    rw [reportLoop]
    rcases List.mem_cons.mp hmem with heq | hrest
    · obtain ⟨hs, hd⟩ := Prod.mk.injEq .. ▸ heq
      subst hs; subst hd
      rw [hfail]
    · cases heq0 : s0.impliedVolatility (s0.modelValue p) (1/100000) 50 0 (1/2) with
      | error e =>
        rw [impliedVolatility_error_eq s0 _ _ _ _ _ e heq0]
      | ok implied_vol =>
        exact ih _ _ _ hrest

theorem reportLoopW_frame :
    ∀ (pairs : List (SwaptionHelper × CalibrationData)) (w : World) (ce ce2 : ℚ)
      (acc : List ReportRow) (res : List ReportRow × ℚ × ℚ) (w2 : World),
      reportLoopW w pairs ce ce2 acc = Except.ok (res, w2) →
      w2 = w ∧ reportLoop w.modelParams pairs ce ce2 acc = Except.ok res := by
  intro pairs
  induction pairs with
  | nil =>
    intro w ce ce2 acc res w2 h
    rw [reportLoopW] at h
    cases h
    exact ⟨rfl, rfl⟩
  | cons sd rest ih =>
    intro w ce ce2 acc res w2 h
    obtain ⟨s, d⟩ := sd
    rw [reportLoopW] at h
    simp only [World.readModelValue, World.readBlackPrice,
      World.readImpliedVolatility] at h
    rw [reportLoop]
    cases heq : s.impliedVolatility (s.modelValue w.modelParams) (1/100000) 50 0 (1/2) with
    | error e => rw [heq] at h; cases h
    | ok implied_vol =>
      rw [heq] at h
      obtain ⟨hw2, hloop⟩ := ih _ _ _ _ _ _ h
      exact ⟨hw2, hloop⟩

theorem exHelper_implied (d : CalibrationData) :
    (helperOf exIndex exCurve exEngine d).impliedVolatility
      ((helperOf exIndex exCurve exEngine d).modelValue exParams) (1/100000) 50 0 (1/2) =
      Except.ok (1/4) := by
  have hmv : (helperOf exIndex exCurve exEngine d).modelValue exParams = 1/4 := rfl
  have hbp : ∀ v : ℚ, (helperOf exIndex exCurve exEngine d).blackPrice v = v :=
    fun v => rfl
  rw [hmv, SwaptionHelper.impliedVolatility, hbp, hbp]
  rw [if_neg (by norm_num), if_neg (by norm_num), if_neg (by norm_num)]
  rw [bisect, hbp]
  rw [if_pos (by norm_num)]
  norm_num

theorem exReport_eval :
    calibration_report exParams exSwaptions exData = Except.ok exReport := by
  have hzip : exSwaptions.zip exData =
      [(helperOf exIndex exCurve exEngine ⟨1, 5, 1/8⟩, (⟨1, 5, 1/8⟩ : CalibrationData)),
       (helperOf exIndex exCurve exEngine ⟨2, 4, 1/8⟩, (⟨2, 4, 1/8⟩ : CalibrationData))] := rfl
  rw [calibration_report, hzip]
  simp only [reportLoop, exHelper_implied]
  have hmv : ∀ d : CalibrationData,
      (helperOf exIndex exCurve exEngine d).modelValue exParams = 1/4 := fun d => rfl
  have hbp : ∀ (d : CalibrationData) (v : ℚ),
      (helperOf exIndex exCurve exEngine d).blackPrice v = v := fun d v => rfl
  simp only [hmv, hbp, exReport, exRow]
  norm_num

theorem exWorld_report_eval :
    calibration_reportW exWorld = Except.ok (exReport, exWorld) := by
  have hzip : exWorld.swaptions.zip exWorld.data =
      [(helperOf exIndex exCurve exEngine ⟨1, 5, 1/8⟩, (⟨1, 5, 1/8⟩ : CalibrationData)),
       (helperOf exIndex exCurve exEngine ⟨2, 4, 1/8⟩, (⟨2, 4, 1/8⟩ : CalibrationData))] := rfl
  have hmp : exWorld.modelParams = exParams := rfl
  rw [calibration_reportW, hzip]
  simp only [reportLoopW, World.readModelValue, World.readBlackPrice,
    World.readImpliedVolatility, hmp, exHelper_implied]
  have hmv : ∀ d : CalibrationData,
      (helperOf exIndex exCurve exEngine d).modelValue exParams = 1/4 := fun d => rfl
  have hbp : ∀ (d : CalibrationData) (v : ℚ),
      (helperOf exIndex exCurve exEngine d).blackPrice v = v := fun d v => rfl
  simp only [hmv, hbp, exReport, exRow]
  norm_num

/-- C1: round-trip law — for an instrument of a valid quote set, feeding its
model price into `impliedVolatility` (with the report invocation's tolerance
1e-5, 50 iterations, interval [0, 0.50]) and evaluating `blackPrice` at the
resulting volatility recovers the model price to within the tolerance. -/
theorem C1_roundTrip (s : SwaptionHelper) (p : List ℚ) (v : ℚ)
    (h : s.impliedVolatility (s.modelValue p) (1/100000) 50 0 (1/2) = Except.ok v) :
    |s.blackPrice v - s.modelValue p| ≤ 1/100000 :=
  impliedVolatility_ok_abs s (s.modelValue p) (1/100000) 50 0 (1/2) v h

/-- Witness for C1 at a concrete instrument: the root find answers 1/4 and
the Black price there recovers the model price exactly. -/
theorem C1_roundTrip_witness :
    (helperOf exIndex exCurve exEngine ⟨1, 5, 1/8⟩).impliedVolatility
      ((helperOf exIndex exCurve exEngine ⟨1, 5, 1/8⟩).modelValue exParams)
      (1/100000) 50 0 (1/2) = Except.ok (1/4) ∧
    |(helperOf exIndex exCurve exEngine ⟨1, 5, 1/8⟩).blackPrice (1/4) -
      (helperOf exIndex exCurve exEngine ⟨1, 5, 1/8⟩).modelValue exParams| ≤ 1/100000 :=
  ⟨exHelper_implied ⟨1, 5, 1/8⟩,
   C1_roundTrip (helperOf exIndex exCurve exEngine ⟨1, 5, 1/8⟩) exParams (1/4)
     (exHelper_implied ⟨1, 5, 1/8⟩)⟩

/-- C2: for every instrument set, optimizer and stopping criteria,
`calibrate()` returns the optimizer's final (best-found) parameter vector on
the model together with the explicit converged flag; the retained vector never
worsens the objective and keeps its shape, and the lifecycle records `FAILED`
exactly when the flag is false — the best-found parameters are retained and
readable via `params()` either way. -/
theorem C2_calibrate_contract (m : ShortRateModel) (instruments : List SwaptionHelper)
    (opt : Optimizer) (ec : EndCriteria) :
    (m.calibrate instruments opt ec).1.params =
      (opt.minimize (calibrationObjective instruments) ec m.paramsVec).1 ∧
    (m.calibrate instruments opt ec).2 =
      (opt.minimize (calibrationObjective instruments) ec m.paramsVec).2.1 ∧
    calibrationObjective instruments ((m.calibrate instruments opt ec).1.params) ≤
      calibrationObjective instruments m.paramsVec ∧
    ((m.calibrate instruments opt ec).1.params).length = m.paramsVec.length ∧
    (m.calibrate instruments opt ec).1.lifecycle =
      (if (m.calibrate instruments opt ec).2 then CalibState.CALIBRATED
       else CalibState.FAILED) := by
  refine ⟨rfl, rfl, ?_, ?_, rfl⟩
  · exact minimize_fst_objective_le opt (calibrationObjective instruments) ec m.paramsVec
  · exact minimize_fst_length opt (calibrationObjective instruments) ec m.paramsVec

/-- C3 counterexample: on a concrete two-instrument report (both relative
price errors equal to 1) the cumulative price scalar the code prints is the
root of the SUM of the squared errors, the root of 2, which differs from the
root of the MEAN of the squared errors claimed by the specification (1). -/
theorem C3_counterexample :
    calibration_report exParams exSwaptions exData = Except.ok exReport ∧
    exReport.cumulativeErrorPrice ≠ rmsErrorPriceOfSpec exReport := by
  refine ⟨exReport_eval, ?_⟩
  have h1 : exReport.cumulativeErrorPrice = Real.sqrt 2 := by
    rw [CalibReport.cumulativeErrorPrice]
    norm_num [exReport]
  have h2 : rmsErrorPriceOfSpec exReport = Real.sqrt 1 := by
    rw [rmsErrorPriceOfSpec]
    norm_num [exReport, exRow]
  rw [h1, h2, Real.sqrt_one, Ne, Real.sqrt_eq_one]
  norm_num

/-- C3 amended: the two cumulative error scalars of `calibration_report` are
root-SUM-square aggregates — each equals the square root of the sum (not the
mean) of the squared per-instrument relative errors over the produced rows. -/
theorem C3_amended_rootSumSquare (p : List ℚ) (swaptions : List SwaptionHelper)
    (data : List CalibrationData) (r : CalibReport)
    (h : calibration_report p swaptions data = Except.ok r) :
    r.cumulativeErrorPrice =
      Real.sqrt (((r.rows.map (fun row => row.relErrorPrice ^ 2)).sum : ℚ) : ℝ) ∧
    r.cumulativeErrorVols =
      Real.sqrt (((r.rows.map (fun row => row.relErrorVol ^ 2)).sum : ℚ) : ℝ) := by
  rw [calibration_report] at h
  cases heq : reportLoop p (swaptions.zip data) 0 0 [] with
  | error e => rw [heq] at h; cases h
  | ok res =>
    rw [heq] at h
    obtain ⟨rows, cf, c2f⟩ := res
    cases h
    obtain ⟨tail, hrows, hcf, hc2f⟩ := reportLoop_ok_sums p _ 0 0 [] rows cf c2f heq
    constructor
    · rw [CalibReport.cumulativeErrorPrice]
      simp only [hcf, hrows, List.nil_append, zero_add]
    · rw [CalibReport.cumulativeErrorVols]
      simp only [hc2f, hrows, List.nil_append, zero_add]

/-- Witness for the amended C3 at the concrete two-instrument report. -/
theorem C3_amended_witness :
    calibration_report exParams exSwaptions exData = Except.ok exReport ∧
    exReport.cumulativeErrorPrice =
      Real.sqrt (((exReport.rows.map (fun row => row.relErrorPrice ^ 2)).sum : ℚ) : ℝ) :=
  ⟨exReport_eval,
   (C3_amended_rootSumSquare exParams exSwaptions exData exReport exReport_eval).1⟩

/-- C4: `impliedVolatility` fails with `NoConvergence` for a non-positive
target price, for a target below the Black price at the lower bound or above
the Black price at the upper bound, and when the iteration budget is
exhausted (here: a zero budget); and it never silently returns a boundary
volatility — any successful answer matches the target within the tolerance. -/
theorem C4_impliedVolatility_failure (s : SwaptionHelper) (target tol : ℚ)
    (maxIterations : ℕ) (lo hi : ℚ) :
    (target ≤ 0 →
      s.impliedVolatility target tol maxIterations lo hi =
        Except.error CalibError.NoConvergence) ∧
    (target < s.blackPrice lo →
      s.impliedVolatility target tol maxIterations lo hi =
        Except.error CalibError.NoConvergence) ∧
    (s.blackPrice hi < target →
      s.impliedVolatility target tol maxIterations lo hi =
        Except.error CalibError.NoConvergence) ∧
    (s.impliedVolatility target tol 0 lo hi = Except.error CalibError.NoConvergence) ∧
    (∀ v, s.impliedVolatility target tol maxIterations lo hi = Except.ok v →
      |s.blackPrice v - target| ≤ tol) :=
  ⟨fun h => impliedVolatility_nonpos s target tol maxIterations lo hi h,
   fun h => impliedVolatility_below_lo s target tol maxIterations lo hi h,
   fun h => impliedVolatility_above_hi s target tol maxIterations lo hi h,
   impliedVolatility_zero_budget s target tol lo hi,
   fun v h => impliedVolatility_ok_abs s target tol maxIterations lo hi v h⟩

/-- Witness for C4 at a concrete instrument and the non-positive target -1:
the inversion signals `NoConvergence`. -/
theorem C4_impliedVolatility_failure_witness :
    (-(1 : ℚ) ≤ 0) ∧
    (helperOf exIndex exCurve exEngine ⟨1, 5, 1/8⟩).impliedVolatility (-1) (1/100000) 50 0 (1/2) =
      Except.error CalibError.NoConvergence :=
  ⟨by norm_num,
   (C4_impliedVolatility_failure (helperOf exIndex exCurve exEngine ⟨1, 5, 1/8⟩)
      (-1) (1/100000) 50 0 (1/2)).1 (by norm_num)⟩

/-- C5: `create_swaption_helpers` maps each quote, in order, to exactly one
helper built from that quote; the result has one helper per quote (equal
lengths), every helper is bound to the given engine and curve, and the
helpers carry the quote volatilities in input order. -/
theorem C5_create_one_per_quote (data : List CalibrationData) (index : IborIndex)
    (term_structure : YieldTermStructureHandle) (engine : PricingEngine) :
    create_swaption_helpers data index term_structure engine =
      data.map (helperOf index term_structure engine) ∧
    (create_swaption_helpers data index term_structure engine).length = data.length ∧
    (create_swaption_helpers data index term_structure engine).map (fun s => s.engine) =
      List.replicate data.length engine ∧
    (create_swaption_helpers data index term_structure engine).map
        (fun s => s.termStructure) = List.replicate data.length term_structure ∧
    (create_swaption_helpers data index term_structure engine).map (fun s => s.volQuote) =
      data.map (fun d => d.volatility) := by
  refine ⟨create_swaption_helpers_eq_map data index term_structure engine, ?_, ?_, ?_, ?_⟩ <;>
    rw [create_swaption_helpers_eq_map data index term_structure engine]
  · simp
  · simp [helperOf, List.map_map, Function.comp_def, List.map_const']
  · simp [helperOf, List.map_map, Function.comp_def, List.map_const']
  · simp [helperOf, List.map_map, Function.comp_def]

/-- C6: after calibration the parameter vector read via `params()` has length
exactly 2 for the one-factor (`HullWhite`) and log one-factor
(`BlackKarasinski`) variants and exactly 5 for the two-factor (`G2`)
variant, for any instrument set, optimizer and stopping criteria. -/
theorem C6_params_length (ts : YieldTermStructureHandle)
    (instruments : List SwaptionHelper) (opt : Optimizer) (ec : EndCriteria) :
    (((HullWhite ts).calibrate instruments opt ec).1.params).length = 2 ∧
    (((BlackKarasinski ts).calibrate instruments opt ec).1.params).length = 2 ∧
    (((G2 ts).calibrate instruments opt ec).1.params).length = 5 := by
  refine ⟨?_, ?_, ?_⟩ <;>
    simp only [ShortRateModel.calibrate, ShortRateModel.params, minimize_fst_length,
      HullWhite, BlackKarasinski, G2, List.length_cons, List.length_nil]

/-- C7 counterexample: a malformed quote (tenor 0, volatility -1/10) is
accepted by `create_swaption_helpers` — the helper is constructed and stores
the malformed values; no `ConfigurationError` is signalled at construction
time. -/
theorem C7_counterexample :
    (create_swaption_helpers [⟨1, 0, -(1/10)⟩] exIndex exCurve exEngine).length = 1 ∧
    (create_swaption_helpers [⟨1, 0, -(1/10)⟩] exIndex exCurve exEngine).map
      (fun s => s.tenorLen) = [0] ∧
    (create_swaption_helpers [⟨1, 0, -(1/10)⟩] exIndex exCurve exEngine).map
      (fun s => s.volQuote) = [-(1/10)] :=
  ⟨rfl, rfl, rfl⟩

/-- C7 amended: constructing a calibration instrument from a malformed quote
(non-positive tenor or non-positive volatility) does NOT signal an error:
`create_swaption_helpers` builds the helper unconditionally and stores the
quote fields unvalidated — validated construction is a reimplementation
recommendation of the spec (§9), not current behaviour. -/
theorem C7_amended_accepts_malformed (d : CalibrationData) (index : IborIndex)
    (term_structure : YieldTermStructureHandle) (engine : PricingEngine)
    (h : d.length ≤ 0 ∨ d.volatility ≤ 0) :
    (create_swaption_helpers [d] index term_structure engine).length = 1 ∧
    create_swaption_helpers [d] index term_structure engine =
      [helperOf index term_structure engine d] :=
  ⟨rfl, rfl⟩

/-- Witness for the amended C7 at the malformed quote (1, 0, -1/10). -/
theorem C7_amended_witness :
    ((0 : Int) ≤ 0 ∨ (-(1/10) : ℚ) ≤ 0) ∧
    (create_swaption_helpers [⟨1, 0, -(1/10)⟩] exIndex exCurve exEngine).length = 1 :=
  ⟨Or.inl (by norm_num),
   (C7_amended_accepts_malformed ⟨1, 0, -(1/10)⟩ exIndex exCurve exEngine
     (Or.inl (by norm_num))).1⟩

/-- C8: `calibration_report` is a pure function of the instruments and quotes:
whenever the state-threaded report succeeds, the state coming out is exactly
the state that went in — instruments, quote data, model parameter vector and
curve are all unchanged — and the produced value is the pure function of those
inputs. -/
theorem C8_report_pure (w : World) (r : CalibReport) (w2 : World)
    (h : calibration_reportW w = Except.ok (r, w2)) :
    w2 = w ∧
    w2.modelParams = w.modelParams ∧ w2.curve = w.curve ∧
    w2.swaptions = w.swaptions ∧ w2.data = w.data ∧
    calibration_report w.modelParams w.swaptions w.data = Except.ok r := by
  rw [calibration_reportW] at h
  cases heq : reportLoopW w (w.swaptions.zip w.data) 0 0 [] with
  | error e => rw [heq] at h; cases h
  | ok out =>
    rw [heq] at h
    obtain ⟨res, wmid⟩ := out
    obtain ⟨rows, cf, c2f⟩ := res
    cases h
    obtain ⟨hw, hloop⟩ := reportLoopW_frame _ w 0 0 [] (rows, cf, c2f) w2 heq
    subst hw
    refine ⟨rfl, rfl, rfl, rfl, rfl, ?_⟩
    rw [calibration_report, hloop]

/-- Witness for C8 at the concrete two-instrument state: the report succeeds
and hands back the unchanged state. -/
theorem C8_report_pure_witness :
    calibration_reportW exWorld = Except.ok (exReport, exWorld) ∧
    calibration_report exWorld.modelParams exWorld.swaptions exWorld.data =
      Except.ok exReport :=
  ⟨exWorld_report_eval,
   (C8_report_pure exWorld exReport exWorld exWorld_report_eval).2.2.2.2.2⟩

/-- C10: `calibration_report` inverts implied volatility with the hardcoded
tolerance 1e-5, iteration cap 50 and search interval [0, 0.50]; consequently,
whenever some instrument of the report carries a model price that no
volatility in [0, 0.50] can reproduce (a non-positive price, or one outside
the Black-price range on that interval), report generation fails with the
root-finding error instead of producing that instrument's row. -/
theorem C10_report_fixed_interval (p : List ℚ) (swaptions : List SwaptionHelper)
    (data : List CalibrationData) (s : SwaptionHelper) (d : CalibrationData)
    (hmem : (s, d) ∈ swaptions.zip data)
    (hout : s.modelValue p ≤ 0 ∨ s.modelValue p < s.blackPrice 0 ∨
      s.blackPrice (1/2) < s.modelValue p) :
    calibration_report p swaptions data = Except.error CalibError.NoConvergence := by
  have hfail : s.impliedVolatility (s.modelValue p) (1/100000) 50 0 (1/2) =
      Except.error CalibError.NoConvergence := by
    rcases hout with h | h | h
    · exact impliedVolatility_nonpos s (s.modelValue p) (1/100000) 50 0 (1/2) h
    · exact impliedVolatility_below_lo s (s.modelValue p) (1/100000) 50 0 (1/2) h
    · exact impliedVolatility_above_hi s (s.modelValue p) (1/100000) 50 0 (1/2) h
  rw [calibration_report, reportLoop_mem_fail p s d hfail (swaptions.zip data) 0 0 [] hmem]

/-- Witness for C10: a concrete instrument whose model price 1 exceeds the
Black price 1/2 at the upper volatility bound makes the report fail. -/
theorem C10_report_fixed_interval_witness :
    ((helperOf exIndex exCurve exEngineHigh ⟨1, 5, 1/8⟩).blackPrice (1/2) <
      (helperOf exIndex exCurve exEngineHigh ⟨1, 5, 1/8⟩).modelValue exParams) ∧
    calibration_report exParams [helperOf exIndex exCurve exEngineHigh ⟨1, 5, 1/8⟩]
      [⟨1, 5, 1/8⟩] = Except.error CalibError.NoConvergence := by
  have hlt : (helperOf exIndex exCurve exEngineHigh ⟨1, 5, 1/8⟩).blackPrice (1/2) <
      (helperOf exIndex exCurve exEngineHigh ⟨1, 5, 1/8⟩).modelValue exParams := by
    norm_num [helperOf, SwaptionHelper.blackPrice, SwaptionHelper.modelValue,
      exCurve, exEngineHigh]
  refine ⟨hlt, C10_report_fixed_interval exParams _ _
    (helperOf exIndex exCurve exEngineHigh ⟨1, 5, 1/8⟩) ⟨1, 5, 1/8⟩
    (List.Mem.head _) (Or.inr (Or.inr hlt))⟩
